import Mathlib

/-!
Verification development for the quickcolor-pro color utility core and its
business-logic services.  The JavaScript/TypeScript sources are shallowly
embedded: JS numbers become `ℚ` (every value arising in the embedded code is
a small rational, and `Math.round`/`Math.floor` are modelled exactly),
JS strings become `List Char`, and the stateful services become pure
state-passing functions in which the outcome of the asynchronous storage
collaborator is an explicit boolean parameter.
-/

namespace QuickColor

/-! ## JS primitives -/

/-- JS `Math.round`: round half toward `+∞`. -/
def jsRound (x : ℚ) : ℤ := ⌊x + 1/2⌋

/-- JS `Math.floor`. -/
def jsFloor (x : ℚ) : ℤ := ⌊x⌋

/-- ASCII uppercase of one char, as JS `toUpperCase` acts on the
characters appearing in this code base. -/
def jsToUpperChar (c : Char) : Char :=
  if 'a' ≤ c ∧ c ≤ 'z' then Char.ofNat (c.toNat - 32) else c

/-- ASCII lowercase of one char. -/
def jsToLowerChar (c : Char) : Char :=
  if 'A' ≤ c ∧ c ≤ 'Z' then Char.ofNat (c.toNat + 32) else c

/-- JS `String.prototype.toUpperCase` on an ASCII string. -/
def jsToUpper (s : List Char) : List Char := s.map jsToUpperChar

/-- JS `String.prototype.toLowerCase` on an ASCII string. -/
def jsToLower (s : List Char) : List Char := s.map jsToLowerChar

/-- Whitespace recognised by JS `String.prototype.trim` (the subset that can
occur in this code base). -/
def isJsSpace (c : Char) : Bool := c = ' ' ∨ c = '\t' ∨ c = '\n' ∨ c = '\r'

/-- JS `String.prototype.trim`. -/
def jsTrim (s : List Char) : List Char :=
  ((s.dropWhile isJsSpace).reverse.dropWhile isJsSpace).reverse

/-- JS `s.substring(a, b)` for `a ≤ b`. -/
def jsSubstring (s : List Char) (a b : ℕ) : List Char := (s.take b).drop a

/-- Is `c` a hexadecimal digit (either case)? -/
def isHexDigit (c : Char) : Bool :=
  ('0' ≤ c ∧ c ≤ '9') ∨ ('a' ≤ c ∧ c ≤ 'f') ∨ ('A' ≤ c ∧ c ≤ 'F')

/-- Numeric value of a hexadecimal digit. -/
def hexDigitVal (c : Char) : ℕ :=
  if '0' ≤ c ∧ c ≤ '9' then c.toNat - 48
  else if 'a' ≤ c ∧ c ≤ 'f' then c.toNat - 87
  else c.toNat - 55

/-- Maximal leading run of hexadecimal digits. -/
def hexPrefix : List Char → List Char
  | [] => []
  | c :: cs => if isHexDigit c then c :: hexPrefix cs else []

/-- JS `parseInt(s, 16)` for the argument shapes produced inside `hexToRgb`
(no leading whitespace, sign, or `0x` prefix): the maximal hex-digit prefix
is parsed; `NaN` (no digits at all) is modelled as `none`. -/
def parseIntHex (s : List Char) : Option ℕ :=
  match hexPrefix s with
  | [] => none
  | ds => some (ds.foldl (fun a c => 16 * a + hexDigitVal c) 0)

/-- JS `n.toString(16)` for an integer-valued number. -/
def intToString16 (n : ℤ) : List Char :=
  if n < 0 then '-' :: Nat.toDigits 16 n.natAbs else Nat.toDigits 16 n.toNat

/-! ## ColorMath (src/unnamed/part_016) -/

/-- RGB triple; each component a JS number. -/
structure RGB where
  r : ℚ
  g : ℚ
  b : ℚ
deriving DecidableEq

/-- HSV triple as produced by `rgbToHsv`: the source always rounds the three
components to integers. -/
structure HSV where
  h : ℤ
  s : ℤ
  v : ℤ
deriving DecidableEq

/-- `hex.replace("#", "")`: JS `replace` with a string pattern removes the
first occurrence only. -/
def replaceFirstHash : List Char → List Char
  | [] => []
  | c :: cs => if c = '#' then cs else c :: replaceFirstHash cs

/-- `hexToRgb` from the color utilities.  A channel whose `parseInt` yields
`NaN` is modelled by `none` for the whole triple (the source would produce
`NaN` components; that propagation is not modelled, and every theorem below
only uses well-formed hex input). -/
def hexToRgb (hex : List Char) : Option RGB :=
  let cleanHex := replaceFirstHash hex
  match parseIntHex (jsSubstring cleanHex 0 2), parseIntHex (jsSubstring cleanHex 2 4),
      parseIntHex (jsSubstring cleanHex 4 6) with
  | some r, some g, some b => some ⟨(r : ℚ), (g : ℚ), (b : ℚ)⟩
  | _, _, _ => none

/-- The local `toHex` helper inside `rgbToHex`. -/
def toHex (n : ℚ) : List Char :=
  let hex := intToString16 (jsRound n)
  if hex.length = 1 then '0' :: hex else hex

/-- `rgbToHex` from the color utilities: note the source rounds but never
clamps its arguments. -/
def rgbToHex (r g b : ℚ) : List Char :=
  jsToUpper ('#' :: (toHex r ++ toHex g ++ toHex b))

/-- `rgbToHsv` from the color utilities. -/
def rgbToHsv (r0 g0 b0 : ℚ) : HSV :=
  let r := r0 / 255
  let g := g0 / 255
  let b := b0 / 255
  let mx := max r (max g b)
  let mn := min r (min g b)
  let delta := mx - mn
  let hs : ℚ × ℚ :=
    if delta ≠ 0 then
      let s := delta / mx
      let h :=
        if mx = r then ((g - b) / delta + (if g < b then 6 else 0)) / 6
        else if mx = g then ((b - r) / delta + 2) / 6
        else ((r - g) / delta + 4) / 6
      (h, s)
    else (0, 0)
  { h := jsRound (hs.1 * 360), s := jsRound (hs.2 * 100), v := jsRound (mx * 100) }

/-- `hsvToRgb` from the color utilities.  JS `%` is truncated remainder,
hence `Int.tmod`; when `i % 6` matches no switch case the channels keep
their initial value `0`, exactly as in the source. -/
def hsvToRgb (h0 s0 v0 : ℚ) : RGB :=
  let h := h0 / 360
  let s := s0 / 100
  let v := v0 / 100
  let i := jsFloor (h * 6)
  let f := h * 6 - (i : ℚ)
  let p := v * (1 - s)
  let q := v * (1 - f * s)
  let t := v * (1 - (1 - f) * s)
  let j := Int.tmod i 6
  let rgb : ℚ × ℚ × ℚ :=
    if j = 0 then (v, t, p)
    else if j = 1 then (q, v, p)
    else if j = 2 then (p, v, t)
    else if j = 3 then (p, q, v)
    else if j = 4 then (t, p, v)
    else if j = 5 then (v, p, q)
    else (0, 0, 0)
  { r := (jsRound (rgb.1 * 255) : ℚ), g := (jsRound (rgb.2.1 * 255) : ℚ),
    b := (jsRound (rgb.2.2 * 255) : ℚ) }

/-- The round trip named by the spec invariant: RGB → HSV → RGB. -/
def hsvRoundTrip (r g b : ℚ) : RGB :=
  let hsv := rgbToHsv r g b
  hsvToRgb (hsv.h : ℚ) (hsv.s : ℚ) (hsv.v : ℚ)

/-! ## HarmonyGenerator (src/unnamed/part_016) -/

/-- The `HarmonyType` union; `split-complementary` is spelled
`splitComplementary`. -/
inductive HarmonyType where
  | complementary
  | triadic
  | analogous
  | splitComplementary
  | tetradic
deriving DecidableEq

/-- `getComplementary`.  Hue arithmetic is JS `%`, i.e. `Int.tmod`.  When
`hexToRgb` fails to parse (`NaN` channels in the source, `none` here) the
derived colors are not modelled and only the base is returned; every theorem
below restricts to well-formed hex input, where this branch is unreachable. -/
def getComplementary (hex : List Char) : List (List Char) :=
  match hexToRgb hex with
  | some rgb =>
      let hsv := rgbToHsv rgb.r rgb.g rgb.b
      let complementaryH := Int.tmod (hsv.h + 180) 360
      let complementaryRgb := hsvToRgb (complementaryH : ℚ) (hsv.s : ℚ) (hsv.v : ℚ)
      [hex, rgbToHex complementaryRgb.r complementaryRgb.g complementaryRgb.b]
  | none => [hex]

/-- `getTriadic` (same modelling conventions as `getComplementary`). -/
def getTriadic (hex : List Char) : List (List Char) :=
  match hexToRgb hex with
  | some rgb =>
      let hsv := rgbToHsv rgb.r rgb.g rgb.b
      hex :: ([(120 : ℤ), 240].map (fun offset =>
        let newH := Int.tmod (hsv.h + offset) 360
        let newRgb := hsvToRgb (newH : ℚ) (hsv.s : ℚ) (hsv.v : ℚ)
        rgbToHex newRgb.r newRgb.g newRgb.b))
  | none => [hex]

/-- `getAnalogous`: the base is regenerated as the `0°` offset entry through
the HSV round trip rather than pushed verbatim. -/
def getAnalogous (hex : List Char) : List (List Char) :=
  match hexToRgb hex with
  | some rgb =>
      let hsv := rgbToHsv rgb.r rgb.g rgb.b
      [(-30 : ℤ), -15, 0, 15, 30].map (fun offset =>
        let newH := Int.tmod (hsv.h + offset + 360) 360
        let newRgb := hsvToRgb (newH : ℚ) (hsv.s : ℚ) (hsv.v : ℚ)
        rgbToHex newRgb.r newRgb.g newRgb.b)
  | none => [hex]

/-- `getSplitComplementary`. -/
def getSplitComplementary (hex : List Char) : List (List Char) :=
  match hexToRgb hex with
  | some rgb =>
      let hsv := rgbToHsv rgb.r rgb.g rgb.b
      hex :: ([(150 : ℤ), 210].map (fun offset =>
        let newH := Int.tmod (hsv.h + offset) 360
        let newRgb := hsvToRgb (newH : ℚ) (hsv.s : ℚ) (hsv.v : ℚ)
        rgbToHex newRgb.r newRgb.g newRgb.b))
  | none => [hex]

/-- `getTetradic`. -/
def getTetradic (hex : List Char) : List (List Char) :=
  match hexToRgb hex with
  | some rgb =>
      let hsv := rgbToHsv rgb.r rgb.g rgb.b
      hex :: ([(90 : ℤ), 180, 270].map (fun offset =>
        let newH := Int.tmod (hsv.h + offset) 360
        let newRgb := hsvToRgb (newH : ℚ) (hsv.s : ℚ) (hsv.v : ℚ)
        rgbToHex newRgb.r newRgb.g newRgb.b))
  | none => [hex]

/-- `getHarmonyColors`: dispatch on the harmony kind. -/
def getHarmonyColors (hex : List Char) (type : HarmonyType) : List (List Char) :=
  match type with
  | .complementary => getComplementary hex
  | .triadic => getTriadic hex
  | .analogous => getAnalogous hex
  | .splitComplementary => getSplitComplementary hex
  | .tetradic => getTetradic hex

/-! ## Service plumbing (src/bll-services/IService.ts shapes) -/

/-- `ServiceResult<T>`: `{ success: true, data }` or
`{ success: false, error, code? }`. -/
inductive ServiceResult (α : Type) where
  | ok (data : α)
  | err (error : List Char) (code : Option (List Char))
deriving DecidableEq

/-- Whether a `ServiceResult` is the success variant. -/
def ServiceResult.isOk {α : Type} : ServiceResult α → Bool
  | .ok _ => true
  | .err _ _ => false

/-- The error code of a failed `ServiceResult`, if any. -/
def ServiceResult.code {α : Type} : ServiceResult α → Option (List Char)
  | .ok _ => none
  | .err _ c => c

/-- The error message of a failed `ServiceResult`, if any. -/
def ServiceResult.errorMsg {α : Type} : ServiceResult α → Option (List Char)
  | .ok _ => none
  | .err e _ => e

/-- One observable step of a mutating service operation.  `result` is the
value returned to the caller, `state` the in-memory state after the call,
`setArg` the full collection handed to the storage collaborator's `set`
(or `none` if `set` was never reached), and `notified` the snapshot passed
to subscribed listeners (`none` if the listeners were not notified).  The
boolean `setOk` argument of each operation below models whether the
collaborator's promise resolves or rejects. -/
structure ServiceOp (α σ π : Type) where
  result : ServiceResult α
  state : σ
  setArg : Option π
  notified : Option π
deriving DecidableEq

/-! ## PaletteService (src/bll-services/index.ts, PaletteService part) -/

/-- `Palette` record from the DAL. -/
structure Palette where
  id : List Char
  name : List Char
  colors : List (List Char)
  createdAt : ℤ
  updatedAt : ℤ
deriving DecidableEq

def MAX_FREE_PALETTES : ℕ := 5

def MAX_PRO_PALETTES : ℕ := 100

def MAX_COLORS_PER_PALETTE : ℕ := 20

/-- `CreatePaletteInput`. -/
structure CreatePaletteInput where
  name : List Char
  colors : List (List Char)
deriving DecidableEq

/-- `UpdatePaletteInput`: optional fields are `Option`s. -/
structure UpdatePaletteInput where
  id : List Char
  name : Option (List Char)
  colors : Option (List (List Char))
deriving DecidableEq

/-- In-memory state of the `PaletteService` singleton (after
initialization; `initialize`/`ensureInitialized` are not modelled, every
operation below acts on the already-loaded state). -/
structure PaletteState where
  palettes : List Palette
  isPro : Bool
deriving DecidableEq

abbrev PaletteOp (α : Type) := ServiceOp α PaletteState (List Palette)

/-- `getPaletteLimit`. -/
def getPaletteLimit (st : PaletteState) : ℕ :=
  if st.isPro then MAX_PRO_PALETTES else MAX_FREE_PALETTES

/-- `canCreatePalette`. -/
def canCreatePalette (st : PaletteState) : Bool :=
  st.palettes.length < getPaletteLimit st

/-- `validatePaletteInput`.  The source's `!input.name` truthiness test and
`Array.isArray` test are subsumed by the typed embedding (an absent name is
the empty string, which already fails the trimmed-length check). -/
def validatePaletteInput (input : CreatePaletteInput) : ServiceResult Unit :=
  if (jsTrim input.name).length = 0 then
    .err "Palette name is required".toList (some "INVALID_NAME".toList)
  else if 50 < (jsTrim input.name).length then
    .err "Palette name too long (max 50 chars)".toList (some "INVALID_NAME".toList)
  else if input.colors.length = 0 then
    .err "At least one color is required".toList (some "INVALID_COLORS".toList)
  else .ok ()

/-- The template literal `` `Palette limit reached (${limit}). Upgrade to Pro for more.` ``. -/
def limitReachedMsg (limit : ℕ) : List Char :=
  "Palette limit reached (".toList ++ Nat.toDigits 10 limit ++
    "). Upgrade to Pro for more.".toList

/-- `createPalette`.  `newId` stands for the `generateId()` call and `now`
for `Date.now()`; `setOk` for the storage `set` outcome.  A rejected `set`
throws, is caught, and surfaces as the catch-block failure result (the
thrown error's own message text is not modelled). -/
def createPalette (st : PaletteState) (input : CreatePaletteInput)
    (newId : List Char) (now : ℤ) (setOk : Bool) : PaletteOp Palette :=
  if ¬ canCreatePalette st then
    { result := .err (limitReachedMsg (getPaletteLimit st)) (some "LIMIT_REACHED".toList),
      state := st, setArg := none, notified := none }
  else
    match validatePaletteInput input with
    | .err e c => { result := .err e c, state := st, setArg := none, notified := none }
    | .ok _ =>
      let palette : Palette :=
        { id := newId, name := jsTrim input.name,
          colors := input.colors.take MAX_COLORS_PER_PALETTE,
          createdAt := now, updatedAt := now }
      let newPalettes := st.palettes ++ [palette]
      if setOk then
        { result := .ok palette, state := { st with palettes := newPalettes },
          setArg := some newPalettes, notified := some newPalettes }
      else
        { result := .err "Failed to create palette".toList none, state := st,
          setArg := some newPalettes, notified := none }

/-- `updatePalette`.  The inner `none` branch of the indexed lookup mirrors
`this.palettes[index]`; it is unreachable because the index comes from
`findIndex`. -/
def updatePalette (st : PaletteState) (input : UpdatePaletteInput)
    (now : ℤ) (setOk : Bool) : PaletteOp Palette :=
  match st.palettes.findIdx? (fun p => p.id = input.id) with
  | none =>
      { result := .err "Palette not found".toList (some "NOT_FOUND".toList),
        state := st, setArg := none, notified := none }
  | some index =>
    match st.palettes[index]? with
    | none =>
        { result := .err "Palette not found".toList (some "NOT_FOUND".toList),
          state := st, setArg := none, notified := none }
    | some old =>
      let validation : ServiceResult Unit :=
        if input.name.isSome ∨ input.colors.isSome then
          validatePaletteInput
            { name := input.name.getD old.name, colors := input.colors.getD old.colors }
        else .ok ()
      match validation with
      | .err e c => { result := .err e c, state := st, setArg := none, notified := none }
      | .ok _ =>
        let updatedPalette : Palette :=
          { old with
            name := match input.name with | some n => jsTrim n | none => old.name,
            colors := match input.colors with
              | some cs => cs.take MAX_COLORS_PER_PALETTE
              | none => old.colors,
            updatedAt := now }
        let newPalettes := st.palettes.set index updatedPalette
        if setOk then
          { result := .ok updatedPalette, state := { st with palettes := newPalettes },
            setArg := some newPalettes, notified := some newPalettes }
        else
          { result := .err "Failed to update palette".toList none, state := st,
            setArg := some newPalettes, notified := none }

/-- `addColorToPalette`: wrapper over `updatePalette`; the added color is
uppercased and the duplicate check is `Array.includes` against the stored
entries, i.e. exact string equality with the uppercased new color. -/
def addColorToPalette (st : PaletteState) (paletteId color : List Char)
    (now : ℤ) (setOk : Bool) : PaletteOp Palette :=
  match st.palettes.find? (fun p => p.id = paletteId) with
  | none =>
      { result := .err "Palette not found".toList (some "NOT_FOUND".toList),
        state := st, setArg := none, notified := none }
  | some palette =>
    if MAX_COLORS_PER_PALETTE ≤ palette.colors.length then
      { result := .err "Maximum 20 colors per palette".toList (some "COLOR_LIMIT".toList),
        state := st, setArg := none, notified := none }
    else if jsToUpper color ∈ palette.colors then
      { result := .err "Color already in palette".toList (some "DUPLICATE".toList),
        state := st, setArg := none, notified := none }
    else
      updatePalette st
        { id := paletteId, name := none, colors := some (palette.colors ++ [jsToUpper color]) }
        now setOk

/-- `removeColorFromPalette`: wrapper over `updatePalette` filtering by
case-insensitive (uppercased) equality. -/
def removeColorFromPalette (st : PaletteState) (paletteId color : List Char)
    (now : ℤ) (setOk : Bool) : PaletteOp Palette :=
  match st.palettes.find? (fun p => p.id = paletteId) with
  | none =>
      { result := .err "Palette not found".toList (some "NOT_FOUND".toList),
        state := st, setArg := none, notified := none }
  | some palette =>
    let newColors := palette.colors.filter (fun c => ¬ jsToUpper c = jsToUpper color)
    updatePalette st { id := paletteId, name := none, colors := some newColors } now setOk

/-- `deletePalette`. -/
def deletePalette (st : PaletteState) (id : List Char) (setOk : Bool) : PaletteOp Unit :=
  if (st.palettes.findIdx? (fun p => p.id = id)).isNone then
    { result := .err "Palette not found".toList (some "NOT_FOUND".toList),
      state := st, setArg := none, notified := none }
  else
    let newPalettes := st.palettes.filter (fun p => ¬ p.id = id)
    if setOk then
      { result := .ok (), state := { st with palettes := newPalettes },
        setArg := some newPalettes, notified := some newPalettes }
    else
      { result := .err "Failed to delete palette".toList none, state := st,
        setArg := some newPalettes, notified := none }

/-- `clearAllPalettes`: the storage call here is `provider.delete`, whose
outcome is `deleteOk`; `setArg` stays `none` because no `set` happens. -/
def clearAllPalettes (st : PaletteState) (deleteOk : Bool) : PaletteOp Unit :=
  if deleteOk then
    { result := .ok (), state := { st with palettes := [] },
      setArg := none, notified := some [] }
  else
    { result := .err "Failed to clear palettes".toList none, state := st,
      setArg := none, notified := none }

/-! ## ColorService (src/bll-services/ColorService.ts) -/

def MAX_RECENT_COLORS : ℕ := 20

def DEFAULT_RECENT_COLORS : List (List Char) :=
  ["#FF6B35".toList, "#4ADE80".toList, "#F87171".toList, "#FBBF24".toList,
    "#0a7ea4".toList]

/-- In-memory state of the `ColorService` singleton (post-initialization). -/
structure ColorState where
  recentColors : List (List Char)
deriving DecidableEq

abbrev ColorOp (α : Type) := ServiceOp α ColorState (List (List Char))

/-- `normalizeHex`: trim, ensure a leading `#`, uppercase. -/
def normalizeHex (hex : List Char) : List Char :=
  let normalized := jsTrim hex
  let normalized := if ¬ normalized.head? = some '#' then '#' :: normalized else normalized
  jsToUpper normalized

/-- Modelled from the spec: the services import `isValidHex` from
`lib/color-utils`, whose definition is not among the provided sources.
Per the spec it is true iff the string is `#` followed by exactly six
hexadecimal digits. -/
def isValidHex (s : List Char) : Bool :=
  match s with
  | c :: ds => c = '#' && ds.length == 6 && ds.all isHexDigit
  | [] => false

/-- `addRecentColor` (validate, drop any case-insensitive occurrence,
prepend, truncate to `MAX_RECENT_COLORS`, persist, notify). -/
def addRecentColor (st : ColorState) (hex : List Char) (setOk : Bool) :
    ColorOp (List (List Char)) :=
  let normalizedHex := normalizeHex hex
  if ¬ isValidHex normalizedHex then
    { result := .err "Invalid hex color".toList (some "INVALID_COLOR".toList),
      state := st, setArg := none, notified := none }
  else
    let filtered := st.recentColors.filter (fun c => ¬ jsToLower c = jsToLower normalizedHex)
    let newColors := (normalizedHex :: filtered).take MAX_RECENT_COLORS
    if setOk then
      { result := .ok newColors, state := { recentColors := newColors },
        setArg := some newColors, notified := some newColors }
    else
      { result := .err "Failed to add color".toList none, state := st,
        setArg := some newColors, notified := none }

/-- `removeRecentColor`. -/
def removeRecentColor (st : ColorState) (hex : List Char) (setOk : Bool) :
    ColorOp (List (List Char)) :=
  let normalizedHex := normalizeHex hex
  let newColors := st.recentColors.filter (fun c => ¬ jsToLower c = jsToLower normalizedHex)
  if setOk then
    { result := .ok newColors, state := { recentColors := newColors },
      setArg := some newColors, notified := some newColors }
  else
    { result := .err "Failed to remove color".toList none, state := st,
      setArg := some newColors, notified := none }

/-- `clearRecentColors`: storage call is `provider.delete` with outcome
`deleteOk`. -/
def clearRecentColors (st : ColorState) (deleteOk : Bool) : ColorOp Unit :=
  if deleteOk then
    { result := .ok (), state := { recentColors := [] }, setArg := none,
      notified := some [] }
  else
    { result := .err "Failed to clear colors".toList none, state := st,
      setArg := none, notified := none }

/-- `resetToDefaults`. -/
def resetToDefaults (st : ColorState) (setOk : Bool) : ColorOp (List (List Char)) :=
  if setOk then
    { result := .ok DEFAULT_RECENT_COLORS, state := { recentColors := DEFAULT_RECENT_COLORS },
      setArg := some DEFAULT_RECENT_COLORS, notified := some DEFAULT_RECENT_COLORS }
  else
    { result := .err "Failed to reset colors".toList none, state := st,
      setArg := some DEFAULT_RECENT_COLORS, notified := none }

/-! ## Color extraction
(`extractDominantColors` in src/unnamed/part_016 and the JS fallback of
src/lib/color-extraction.ts).  Pixel buffers are byte lists; an out-of-range
JS read (`undefined`) is modelled as 0 and is never exercised by the claims,
which use well-formed buffers.  JS float literals (0.4 etc.) are modelled as
exact decimal rationals. -/

/-- Read `data[i]`. -/
def byteAt (data : List ℕ) (i : ℕ) : ℕ := (data.get? i).getD 0

/-- The index sequence of a JS loop `for (i = 0; i < bound; i += stride)`:
all multiples of `stride` below `bound`. -/
def strideIndices (bound stride : ℕ) : List ℕ :=
  (List.range ((bound + stride - 1) / stride)).map (fun k => k * stride)

/-- An `{r, g, b}` pixel pushed by `extractDominantColors`. -/
structure PixelRGB where
  r : ℕ
  g : ℕ
  b : ℕ
deriving DecidableEq

/-- A `{count, r, g, b}` accumulator of `extractDominantColors`
(`r`, `g`, `b` are running sums of true channel values). -/
structure ClusterAcc where
  count : ℕ
  r : ℕ
  g : ℕ
  b : ℕ
deriving DecidableEq

/-- `colorMap.set`/in-place update of a JS `Map`: insertion order is
preserved, an existing key is updated in place. -/
def upsertCluster (m : List ((ℕ × ℕ × ℕ) × ClusterAcc)) (k : ℕ × ℕ × ℕ)
    (p : PixelRGB) : List ((ℕ × ℕ × ℕ) × ClusterAcc) :=
  match m with
  | [] => [(k, ⟨1, p.r, p.g, p.b⟩)]
  | (k0, c0) :: rest =>
    if k0 = k then
      (k0, ⟨c0.count + 1, c0.r + p.r, c0.g + p.g, c0.b + p.b⟩) :: rest
    else (k0, c0) :: upsertCluster rest k p

/-- The for-loop of `extractDominantColors` that averages clusters, filters
colors similar to already-picked ones, and breaks once `colorCount` colors
are picked. -/
def fillSimilar : List ((ℕ × ℕ × ℕ) × ClusterAcc) → List (List Char) → ℕ → List (List Char)
  | [], result, _ => result
  | (_, data) :: rest, result, colorCount =>
    let avgR := jsRound ((data.r : ℚ) / (data.count : ℚ))
    let avgG := jsRound ((data.g : ℚ) / (data.count : ℚ))
    let avgB := jsRound ((data.b : ℚ) / (data.count : ℚ))
    let hex := rgbToHex (avgR : ℚ) (avgG : ℚ) (avgB : ℚ)
    let isSimilar := result.any (fun existingHex =>
      match hexToRgb existingHex with
      | some existingRgb =>
          decide (|existingRgb.r - (avgR : ℚ)| + |existingRgb.g - (avgG : ℚ)| +
            |existingRgb.b - (avgB : ℚ)| < 60)
      | none => false)
    let result2 := if isSimilar then result else result ++ [hex]
    if colorCount ≤ result2.length then result2 else fillSimilar rest result2 colorCount

/-- The trailing `while (result.length < colorCount)` padding loop of
`extractDominantColors`; each iteration appends exactly one entry, so
`colorCount` steps of fuel always suffice. -/
def padDefaults (defaults : List (List Char)) (colorCount : ℕ) :
    ℕ → List (List Char) → List (List Char)
  | 0, result => result
  | fuel + 1, result =>
    if result.length < colorCount then
      padDefaults defaults colorCount fuel
        (result ++ [(defaults.get? (result.length % defaults.length)).getD []])
    else result

/-- The fixed default color list of `extractDominantColors`. -/
def DOMINANT_DEFAULTS : List (List Char) :=
  ["#FF6B35".toList, "#4ADE80".toList, "#F87171".toList, "#FBBF24".toList,
    "#0a7ea4".toList]

/-- `extractDominantColors` from the color utilities. -/
def extractDominantColors (imageData : List ℕ) (width height : ℕ)
    (colorCount : ℕ := 5) : List (List Char) :=
  let step := max 1 (width * height / 10000)
  let pixels := (strideIndices imageData.length (4 * step)).filterMap (fun i =>
    let r := byteAt imageData i
    let g := byteAt imageData (i + 1)
    let b := byteAt imageData (i + 2)
    let a := byteAt imageData (i + 3)
    if a < 128 then none
    else if ((r : ℚ) + g + b) / 3 < 20 ∨ 235 < ((r : ℚ) + g + b) / 3 then none
    else some (⟨r, g, b⟩ : PixelRGB))
  if pixels.length = 0 then DOMINANT_DEFAULTS
  else
    let colorMap := pixels.foldl
      (fun m p => upsertCluster m (p.r / 32 * 32, p.g / 32 * 32, p.b / 32 * 32) p) []
    let sortedColors :=
      (colorMap.mergeSort (fun a b => b.2.count ≤ a.2.count)).take (colorCount * 2)
    padDefaults DOMINANT_DEFAULTS colorCount colorCount (fillSimilar sortedColors [] colorCount)

/-- `ExtractedColors` from src/lib/color-extraction.ts. -/
structure ExtractedColors where
  dominant : List Char
  vibrant : List Char
  darkVibrant : List Char
  lightVibrant : List Char
  muted : List Char
  darkMuted : List Char
  lightMuted : List Char
deriving DecidableEq

/-- `DEFAULT_COLORS` from src/lib/color-extraction.ts. -/
def DEFAULT_COLORS : ExtractedColors :=
  { dominant := "#FF6B35".toList, vibrant := "#4ADE80".toList,
    darkVibrant := "#F87171".toList, lightVibrant := "#FBBF24".toList,
    muted := "#0a7ea4".toList, darkMuted := "#E879F9".toList,
    lightMuted := "#38BDF8".toList }

/-- A `{r, g, b, count}` cluster of `extractColorsJS`, whose channels hold a
rounded running average. -/
structure AvgCluster where
  r : ℤ
  g : ℤ
  b : ℤ
  count : ℕ
deriving DecidableEq

/-- The `Map` update of `extractColorsJS`: increment the count, then replace
each channel by the rounded running average using the new count. -/
def upsertAvg (m : List ((ℕ × ℕ × ℕ) × AvgCluster)) (k : ℕ × ℕ × ℕ)
    (r g b : ℕ) : List ((ℕ × ℕ × ℕ) × AvgCluster) :=
  match m with
  | [] => [(k, ⟨(r : ℤ), (g : ℤ), (b : ℤ), 1⟩)]
  | (k0, c0) :: rest =>
    if k0 = k then
      let newCount := c0.count + 1
      (k0, { r := jsRound (((c0.r : ℚ) * (newCount - 1 : ℕ) + r) / (newCount : ℚ)),
             g := jsRound (((c0.g : ℚ) * (newCount - 1 : ℕ) + g) / (newCount : ℚ)),
             b := jsRound (((c0.b : ℚ) * (newCount - 1 : ℕ) + b) / (newCount : ℚ)),
             count := newCount }) :: rest
    else (k0, c0) :: upsertAvg rest k r g b

/-- The local `rgbToHex` of `extractColorsJS` (`toString(16)` with
`padStart(2, "0")`). -/
def jsPadStart (s : List Char) (n : ℕ) (c : Char) : List Char :=
  List.replicate (n - s.length) c ++ s

def rgbToHexPad (r g b : ℤ) : List Char :=
  jsToUpper ('#' :: (jsPadStart (intToString16 r) 2 '0' ++
    jsPadStart (intToString16 g) 2 '0' ++ jsPadStart (intToString16 b) 2 '0'))

def clusterHex (c : AvgCluster) : List Char := rgbToHexPad c.r c.g c.b

/-- `max === 0 ? 0 : (max - min) / max` of `extractColorsJS`. -/
def clusterSaturation (c : AvgCluster) : ℚ :=
  let mx : ℚ := max (c.r : ℚ) (max (c.g : ℚ) (c.b : ℚ))
  let mn : ℚ := min (c.r : ℚ) (min (c.g : ℚ) (c.b : ℚ))
  if mx = 0 then 0 else (mx - mn) / mx

def clusterBrightness (c : AvgCluster) : ℚ := ((c.r : ℚ) + c.g + c.b) / 3 / 255

/-- `findVibrant` of `extractColorsJS`. -/
def findVibrant (sortedColors : List AvgCluster) (dominant : List Char) : List Char :=
  match sortedColors.find? (fun c =>
      decide (4/10 < clusterSaturation c ∧ 3/10 < clusterBrightness c ∧
        clusterBrightness c < 7/10)) with
  | some c => clusterHex c
  | none => dominant

/-- `findDark` of `extractColorsJS`. -/
def findDark (sortedColors : List AvgCluster) (dominant : List Char) : List Char :=
  match sortedColors.find? (fun c => decide (clusterBrightness c < 4/10)) with
  | some c => clusterHex c
  | none => dominant

/-- `findLight` of `extractColorsJS`. -/
def findLight (sortedColors : List AvgCluster) (dominant : List Char) : List Char :=
  match sortedColors.find? (fun c => decide (6/10 < clusterBrightness c)) with
  | some c => clusterHex c
  | none => dominant

/-- `findMuted` of `extractColorsJS`. -/
def findMuted (sortedColors : List AvgCluster) (dominant : List Char) : List Char :=
  match sortedColors.find? (fun c => decide (clusterSaturation c < 3/10)) with
  | some c => clusterHex c
  | none => dominant

/-- The pixel-analysis core of `extractColorsJS`
(src/lib/color-extraction.ts): `bytes` stands for the fetched image bytes
(the `fetch`/`blob` plumbing is an external collaborator).  Any internal
error is caught and yields `fallback`; the embedded core is total, so only
the zero-cluster path returns `fallback`. -/
def extractColorsJS (bytes : List ℕ) (fallback : ExtractedColors) : ExtractedColors :=
  let sampleRate := max 1 (bytes.length / 10000)
  let colorMap := (strideIndices (bytes.length - 3) (sampleRate * 3)).foldl
    (fun m i =>
      let r := byteAt bytes i
      let g := byteAt bytes (i + 1)
      let b := byteAt bytes (i + 2)
      if ((r : ℚ) + g + b) / 3 < 20 ∨ 235 < ((r : ℚ) + g + b) / 3 then m
      else upsertAvg m (r / 32 * 32, g / 32 * 32, b / 32 * 32) r g b) []
  let sortedColors :=
    (((colorMap.map Prod.snd).filter (fun c => 5 < c.count)).mergeSort
      (fun a b => b.count ≤ a.count)).take 10
  match sortedColors with
  | [] => fallback
  | c0 :: _ =>
    let dominant := clusterHex c0
    { dominant := dominant,
      vibrant := findVibrant sortedColors dominant,
      darkVibrant := findDark sortedColors dominant,
      lightVibrant := findLight sortedColors dominant,
      muted := findMuted sortedColors dominant,
      darkMuted := findDark sortedColors dominant,
      lightMuted := findLight sortedColors dominant }

/-- Modelled from the source minus its external collaborators: on platforms
without the optional native module, `extractColorsFromImage` resolves to the
JS fallback extraction over the fetched bytes, with the fallback color set
defaulting to `DEFAULT_COLORS`. -/
def extractColorsFromImage (bytes : List ℕ)
    (fallbackColors : Option ExtractedColors) : ExtractedColors :=
  extractColorsJS bytes (fallbackColors.getD DEFAULT_COLORS)

/-! ## Statement-level definitions used by the theorems -/

/-- The persistence discipline the spec demands of a mutating operation
`run`, parameterized by the storage outcome: if the storage call rejects,
the in-memory state is unchanged, a failure result is returned, and no
listener is notified; whenever listeners are notified, the notified
snapshot is exactly the new in-memory collection and (for `set`-backed
operations) exactly the collection that was handed to the store. -/
def MutationContract {α σ π : Type} (st : σ) (proj : σ → π) (usesSet : Bool)
    (run : Bool → ServiceOp α σ π) : Prop :=
  ((run false).state = st ∧ (run false).result.isOk = false ∧
    (run false).notified = none) ∧
  ∀ ok l, (run ok).notified = some l →
    proj (run ok).state = l ∧ (usesSet = true → (run ok).setArg = some l)

/-- The implicit size invariant on stored palettes. -/
def PaletteBoundsOk (l : List Palette) : Prop :=
  ∀ p ∈ l, 1 ≤ p.colors.length ∧ p.colors.length ≤ MAX_COLORS_PER_PALETTE

/-- `toHex` restricted to natural-number channel values. -/
def toHexNat (n : ℕ) : List Char :=
  let hex := Nat.toDigits 16 n
  if hex.length = 1 then '0' :: hex else hex

/-- Spec-side predicate (written from the spec's words, for comparison with
the source function): is `c` an uppercase hexadecimal digit? -/
def isUpperHexDigit (c : Char) : Bool :=
  ('0' ≤ c ∧ c ≤ '9') ∨ ('A' ≤ c ∧ c ≤ 'F')

/-- Spec-side predicate (written from the spec's words): a `#` followed by
exactly six uppercase hexadecimal digits. -/
def specHexColorFormat (s : List Char) : Bool :=
  match s with
  | '#' :: ds => ds.length == 6 && ds.all isUpperHexDigit
  | _ => false

/-! ## Shared helper lemmas and sample data -/

/-- A sample well-formed palette used by concrete witnesses. -/
def samplePalette : Palette :=
  { id := "id1".toList, name := "Sample".toList, colors := ["#FF0000".toList],
    createdAt := 0, updatedAt := 0 }

/-- A free-tier state holding exactly five palettes. -/
def fullFreeState : PaletteState :=
  { palettes := List.replicate 5 samplePalette, isPro := false }

theorem tmod_coe_coe (m n : ℕ) : Int.tmod (Int.ofNat m) (Int.ofNat n) = Int.ofNat (m % n) := rfl

theorem tmod_nonneg_eq_emod (a b : ℤ) (ha : 0 ≤ a) (hb : 0 ≤ b) :
    Int.tmod a b = a % b := by
  obtain ⟨m, rfl⟩ := Int.eq_ofNat_of_zero_le ha
  obtain ⟨n, rfl⟩ := Int.eq_ofNat_of_zero_le hb
  rfl

/-! ## C3: palette limit enforcement -/

/-- C3: with pro status off and five palettes stored, `canCreatePalette` is
false and a sixth `createPalette` call fails with code `LIMIT_REACHED`, an
error message mentioning the current ceiling (5), and no change to the
stored collection (no store write, no notification). -/
theorem palette_limit_enforcement (st : PaletteState) (input : CreatePaletteInput)
    (newId : List Char) (now : ℤ) (setOk : Bool)
    (hPro : st.isPro = false) (hLen : st.palettes.length = 5) :
    canCreatePalette st = false ∧
    createPalette st input newId now setOk =
      { result := .err (limitReachedMsg 5) (some "LIMIT_REACHED".toList),
        state := st, setArg := none, notified := none } ∧
    limitReachedMsg 5 = "Palette limit reached (5). Upgrade to Pro for more.".toList := by
  have hLimit : getPaletteLimit st = 5 := by
    simp [getPaletteLimit, hPro, MAX_FREE_PALETTES]
  have hCan : canCreatePalette st = false := by
    simp [canCreatePalette, hLimit, hLen]
  refine ⟨hCan, ?_, by decide⟩
  simp [createPalette, hCan, hLimit]

/-- Witness for C3 at a concrete five-palette free-tier state. -/
theorem palette_limit_enforcement_witness :
    canCreatePalette fullFreeState = false ∧
    createPalette fullFreeState ⟨"New".toList, ["#00FF00".toList]⟩ "id6".toList 1 true =
      { result := .err (limitReachedMsg 5) (some "LIMIT_REACHED".toList),
        state := fullFreeState, setArg := none, notified := none } ∧
    limitReachedMsg 5 = "Palette limit reached (5). Upgrade to Pro for more.".toList :=
  palette_limit_enforcement fullFreeState ⟨"New".toList, ["#00FF00".toList]⟩
    "id6".toList 1 true rfl (by decide)

/-! ## C6: recent colors dedup, order and bound -/

/-- C6: for a valid hex color, a successful `addRecentColor` puts the
normalized color at the front, removes every prior case-insensitive
occurrence (so nothing in the tail matches it case-insensitively), keeps
the list within 20 entries, and — when the color already occurred exactly
once in a list of at most 20 entries — leaves the length unchanged.
(`isValidHex` is modelled from the spec since its defining module is not
among the provided sources.) -/
theorem recent_colors_add (st : ColorState) (hex : List Char)
    (hValid : isValidHex (normalizeHex hex) = true) :
    (addRecentColor st hex true).state.recentColors.head? = some (normalizeHex hex) ∧
    (∀ c ∈ (addRecentColor st hex true).state.recentColors.tail,
      ¬ jsToLower c = jsToLower (normalizeHex hex)) ∧
    (addRecentColor st hex true).state.recentColors.length ≤ 20 ∧
    (st.recentColors.countP
        (fun c => jsToLower c = jsToLower (normalizeHex hex)) = 1 →
      st.recentColors.length ≤ 20 →
      (addRecentColor st hex true).state.recentColors.length = st.recentColors.length) := by
  have hEq : (addRecentColor st hex true).state.recentColors =
      (normalizeHex hex ::
        st.recentColors.filter
          (fun c => ¬ jsToLower c = jsToLower (normalizeHex hex))).take MAX_RECENT_COLORS := by
    simp [addRecentColor, hValid]
  refine ⟨?_, ?_, ?_, ?_⟩
  · rw [hEq]
    simp [MAX_RECENT_COLORS]
  · intro c hc
    rw [hEq] at hc
    simp only [MAX_RECENT_COLORS, List.take_succ_cons, List.tail_cons] at hc
    have hc2 := List.mem_filter.mp (List.mem_of_mem_take hc)
    simpa using hc2.2
  · rw [hEq]
    simp [MAX_RECENT_COLORS, List.length_take]
  · intro hCount hLen
    have hpos : 1 ≤ st.recentColors.length := by
      have hle := List.countP_le_length
        (p := fun c => decide (jsToLower c = jsToLower (normalizeHex hex)))
        (l := st.recentColors)
      omega
    have htot := List.length_eq_countP_add_countP
      (fun c => decide (jsToLower c = jsToLower (normalizeHex hex))) st.recentColors
    have hpred : (fun a => decide
          (¬ (decide (jsToLower a = jsToLower (normalizeHex hex)) = true))) =
        (fun c : List Char => decide (¬ jsToLower c = jsToLower (normalizeHex hex))) := by
      funext a
      by_cases h : jsToLower a = jsToLower (normalizeHex hex) <;> simp [h]
    rw [hpred] at htot
    rw [List.countP_eq_length_filter] at htot
    rw [List.countP_eq_length_filter] at htot
    rw [List.countP_eq_length_filter] at hCount
    rw [hCount] at htot
    rw [hEq]
    simp only [MAX_RECENT_COLORS, List.length_take, List.length_cons]
    omega

/-- Witness for C6: re-adding `#ff0000` to `["#FF0000", "#00FF00"]`. -/
theorem recent_colors_add_witness :
    (addRecentColor ⟨["#FF0000".toList, "#00FF00".toList]⟩ "#ff0000".toList
        true).state.recentColors.head? = some (normalizeHex "#ff0000".toList) ∧
    (∀ c ∈ (addRecentColor ⟨["#FF0000".toList, "#00FF00".toList]⟩ "#ff0000".toList
        true).state.recentColors.tail,
      ¬ jsToLower c = jsToLower (normalizeHex "#ff0000".toList)) ∧
    (addRecentColor ⟨["#FF0000".toList, "#00FF00".toList]⟩ "#ff0000".toList
        true).state.recentColors.length ≤ 20 ∧
    (["#FF0000".toList, "#00FF00".toList].countP
        (fun c => jsToLower c = jsToLower (normalizeHex "#ff0000".toList)) = 1 →
      ["#FF0000".toList, "#00FF00".toList].length ≤ 20 →
      (addRecentColor ⟨["#FF0000".toList, "#00FF00".toList]⟩ "#ff0000".toList
          true).state.recentColors.length =
        ["#FF0000".toList, "#00FF00".toList].length) :=
  recent_colors_add ⟨["#FF0000".toList, "#00FF00".toList]⟩ "#ff0000".toList (by decide)

/-! ## C4: persist-before-state-and-notify discipline -/


theorem contract_createPalette (st : PaletteState) (input : CreatePaletteInput)
    (newId : List Char) (now : ℤ) :
    MutationContract st PaletteState.palettes true (createPalette st input newId now) := by
  unfold MutationContract
  by_cases hc : canCreatePalette st
  · rcases hval : validatePaletteInput input with d | ⟨e, c⟩
    · refine ⟨by simp [createPalette, hc, hval, ServiceResult.isOk], ?_⟩
      intro ok l h
      cases ok
      · simp [createPalette, hc, hval] at h
      · simp [createPalette, hc, hval] at h ⊢
        simp [← h]
    · refine ⟨by simp [createPalette, hc, hval, ServiceResult.isOk], ?_⟩
      intro ok l h
      simp [createPalette, hc, hval] at h
  · refine ⟨by simp [createPalette, hc, ServiceResult.isOk], ?_⟩
    intro ok l h
    simp [createPalette, hc] at h

theorem contract_updatePalette (st : PaletteState) (input : UpdatePaletteInput)
    (now : ℤ) :
    MutationContract st PaletteState.palettes true (updatePalette st input now) := by
  unfold MutationContract
  rcases hidx : st.palettes.findIdx? (fun p => p.id = input.id) with _ | index
  · refine ⟨by simp [updatePalette, hidx, ServiceResult.isOk], ?_⟩
    intro ok l h
    simp [updatePalette, hidx] at h
  · rcases hget : st.palettes[index]? with _ | old
    · refine ⟨by simp [updatePalette, hidx, hget, ServiceResult.isOk], ?_⟩
      intro ok l h
      simp [updatePalette, hidx, hget] at h
    · rcases hval : (if input.name.isSome ∨ input.colors.isSome then
          validatePaletteInput
            { name := input.name.getD old.name, colors := input.colors.getD old.colors }
        else .ok ()) with d | ⟨e, c⟩
      · refine ⟨by simp [updatePalette, hidx, hget, hval, ServiceResult.isOk], ?_⟩
        intro ok l h
        cases ok
        · simp [updatePalette, hidx, hget, hval] at h
        · simp [updatePalette, hidx, hget, hval] at h ⊢
          simp [← h]
      · refine ⟨by simp [updatePalette, hidx, hget, hval, ServiceResult.isOk], ?_⟩
        intro ok l h
        simp [updatePalette, hidx, hget, hval] at h

theorem contract_addColorToPalette (st : PaletteState) (paletteId color : List Char)
    (now : ℤ) :
    MutationContract st PaletteState.palettes true
      (addColorToPalette st paletteId color now) := by
  rcases hfind : st.palettes.find? (fun p => p.id = paletteId) with _ | palette
  · refine ⟨by simp [addColorToPalette, hfind, ServiceResult.isOk], ?_⟩
    intro ok l h
    simp [addColorToPalette, hfind] at h
  · by_cases hcap : MAX_COLORS_PER_PALETTE ≤ palette.colors.length
    · refine ⟨by simp [addColorToPalette, hfind, hcap, ServiceResult.isOk], ?_⟩
      intro ok l h
      simp [addColorToPalette, hfind, hcap] at h
    · by_cases hdup : jsToUpper color ∈ palette.colors
      · refine ⟨by simp [addColorToPalette, hfind, hcap, hdup, ServiceResult.isOk], ?_⟩
        intro ok l h
        simp [addColorToPalette, hfind, hcap, hdup] at h
      · have hfun : addColorToPalette st paletteId color now = updatePalette st
            { id := paletteId, name := none,
              colors := some (palette.colors ++ [jsToUpper color]) } now := by
          funext ok
          simp [addColorToPalette, hfind, hcap, hdup]
        rw [hfun]
        exact contract_updatePalette st _ now

theorem contract_removeColorFromPalette (st : PaletteState)
    (paletteId color : List Char) (now : ℤ) :
    MutationContract st PaletteState.palettes true
      (removeColorFromPalette st paletteId color now) := by
  rcases hfind : st.palettes.find? (fun p => p.id = paletteId) with _ | palette
  · refine ⟨by simp [removeColorFromPalette, hfind, ServiceResult.isOk], ?_⟩
    intro ok l h
    simp [removeColorFromPalette, hfind] at h
  · have hfun : removeColorFromPalette st paletteId color now = updatePalette st
        { id := paletteId, name := none,
          colors := some (palette.colors.filter
            (fun c => ¬ jsToUpper c = jsToUpper color)) } now := by
      funext ok
      simp [removeColorFromPalette, hfind]
    rw [hfun]
    exact contract_updatePalette st _ now

theorem contract_deletePalette (st : PaletteState) (id : List Char) :
    MutationContract st PaletteState.palettes true (deletePalette st id) := by
  unfold MutationContract
  by_cases hidx : (st.palettes.findIdx? (fun p => p.id = id)).isNone
  · refine ⟨by simp [deletePalette, hidx, ServiceResult.isOk], ?_⟩
    intro ok l h
    simp [deletePalette, hidx] at h
  · refine ⟨by simp [deletePalette, hidx, ServiceResult.isOk], ?_⟩
    intro ok l h
    cases ok
    · simp [deletePalette, hidx] at h
    · simp [deletePalette, hidx] at h ⊢
      simp [← h]

theorem contract_clearAllPalettes (st : PaletteState) :
    MutationContract st PaletteState.palettes false (clearAllPalettes st) := by
  unfold MutationContract
  refine ⟨by simp [clearAllPalettes, ServiceResult.isOk], ?_⟩
  intro ok l h
  cases ok
  · simp [clearAllPalettes] at h
  · simp [clearAllPalettes] at h ⊢
    simp [← h]

theorem contract_addRecentColor (st : ColorState) (hex : List Char) :
    MutationContract st ColorState.recentColors true (addRecentColor st hex) := by
  unfold MutationContract
  by_cases hv : isValidHex (normalizeHex hex)
  · refine ⟨by simp [addRecentColor, hv, ServiceResult.isOk], ?_⟩
    intro ok l h
    cases ok
    · simp [addRecentColor, hv] at h
    · simp [addRecentColor, hv] at h ⊢
      simp [← h]
  · refine ⟨by simp [addRecentColor, hv, ServiceResult.isOk], ?_⟩
    intro ok l h
    simp [addRecentColor, hv] at h

theorem contract_removeRecentColor (st : ColorState) (hex : List Char) :
    MutationContract st ColorState.recentColors true (removeRecentColor st hex) := by
  unfold MutationContract
  refine ⟨by simp [removeRecentColor, ServiceResult.isOk], ?_⟩
  intro ok l h
  cases ok
  · simp [removeRecentColor] at h
  · simp [removeRecentColor] at h ⊢
    simp [← h]

theorem contract_clearRecentColors (st : ColorState) :
    MutationContract st ColorState.recentColors false (clearRecentColors st) := by
  unfold MutationContract
  refine ⟨by simp [clearRecentColors, ServiceResult.isOk], ?_⟩
  intro ok l h
  cases ok
  · simp [clearRecentColors] at h
  · simp [clearRecentColors] at h ⊢
    simp [← h]

theorem contract_resetToDefaults (st : ColorState) :
    MutationContract st ColorState.recentColors true (resetToDefaults st) := by
  unfold MutationContract
  refine ⟨by simp [resetToDefaults, ServiceResult.isOk], ?_⟩
  intro ok l h
  cases ok
  · simp [resetToDefaults] at h
  · simp [resetToDefaults] at h ⊢
    simp [← h]

/-- C4: every mutating operation of the palette service and of the
recent-colors service satisfies the persistence discipline: the full new
collection is handed to the backing store, listeners are only notified
with the persisted new in-memory collection, and a rejected store call
leaves the in-memory state unchanged, notifies nobody, and surfaces as a
failure result. -/
theorem mutations_persist_before_state (stP : PaletteState) (stC : ColorState)
    (input : CreatePaletteInput) (uinput : UpdatePaletteInput)
    (id color newId hex : List Char) (now : ℤ) :
    MutationContract stP PaletteState.palettes true (createPalette stP input newId now) ∧
    MutationContract stP PaletteState.palettes true (updatePalette stP uinput now) ∧
    MutationContract stP PaletteState.palettes true (addColorToPalette stP id color now) ∧
    MutationContract stP PaletteState.palettes true
      (removeColorFromPalette stP id color now) ∧
    MutationContract stP PaletteState.palettes true (deletePalette stP id) ∧
    MutationContract stP PaletteState.palettes false (clearAllPalettes stP) ∧
    MutationContract stC ColorState.recentColors true (addRecentColor stC hex) ∧
    MutationContract stC ColorState.recentColors true (removeRecentColor stC hex) ∧
    MutationContract stC ColorState.recentColors false (clearRecentColors stC) ∧
    MutationContract stC ColorState.recentColors true (resetToDefaults stC) :=
  ⟨contract_createPalette stP input newId now, contract_updatePalette stP uinput now,
    contract_addColorToPalette stP id color now,
    contract_removeColorFromPalette stP id color now, contract_deletePalette stP id,
    contract_clearAllPalettes stP, contract_addRecentColor stC hex,
    contract_removeRecentColor stC hex, contract_clearRecentColors stC,
    contract_resetToDefaults stC⟩

/-! ## C10: palettes always keep between 1 and 20 colors -/


theorem validatePaletteInput_ok (input : CreatePaletteInput) (d : Unit)
    (h : validatePaletteInput input = .ok d) :
    (jsTrim input.name).length ≠ 0 ∧ (jsTrim input.name).length ≤ 50 ∧
      1 ≤ input.colors.length := by
  unfold validatePaletteInput at h
  split at h
  · simp at h
  · split at h
    · simp at h
    · split at h
      · simp at h
      · rename_i h1 h2 h3
        exact ⟨h1, by omega, by omega⟩

theorem findIdx?_of_find? {α : Type} (p : α → Bool) (l : List α) (a : α)
    (h : l.find? p = some a) :
    ∃ i, l.findIdx? p = some i ∧ l[i]? = some a := by
  induction l with
  | nil => simp at h
  | cons x xs ih =>
    by_cases hp : p x
    · refine ⟨0, ?_, ?_⟩
      · simp [List.findIdx?_cons, hp]
      · simp [List.find?_cons, hp] at h
        simp [h]
    · simp only [List.find?_cons, hp] at h
      obtain ⟨i, hi, hget⟩ := ih h
      refine ⟨i + 1, ?_, by simpa using hget⟩
      simp [List.findIdx?_cons, hp, List.findIdx?_succ, hi]

theorem updatePalette_bounds (st : PaletteState) (input : UpdatePaletteInput)
    (now : ℤ) (setOk : Bool) (hst : PaletteBoundsOk st.palettes) :
    PaletteBoundsOk (updatePalette st input now setOk).state.palettes := by
  rcases hidx : st.palettes.findIdx? (fun p => p.id = input.id) with _ | index
  · simpa [updatePalette, hidx] using hst
  · rcases hget : st.palettes[index]? with _ | old
    · simpa [updatePalette, hidx, hget] using hst
    · rcases hval : (if input.name.isSome ∨ input.colors.isSome then
          validatePaletteInput
            { name := input.name.getD old.name, colors := input.colors.getD old.colors }
        else .ok ()) with d | ⟨e, c⟩
      · cases setOk with
        | false => simpa [updatePalette, hidx, hget, hval] using hst
        | true =>
          intro q hq
          simp only [updatePalette, hidx, hget, hval] at hq
          rcases List.mem_or_eq_of_mem_set hq with hmem | rfl
          · exact hst q hmem
          · rcases hcs : input.colors with _ | cs
            · simpa [hcs] using hst old (List.getElem?_mem hget)
            · rcases hval2 : validatePaletteInput
                  { name := input.name.getD old.name, colors := cs } with d2 | ⟨e2, c2⟩
              · obtain ⟨-, -, hlen⟩ := validatePaletteInput_ok _ _ hval2
                have hlen2 : 1 ≤ cs.length := hlen
                simp [hcs, List.length_take, MAX_COLORS_PER_PALETTE]
                omega
              · rw [hcs] at hval
                simp only [Option.isSome_some, or_true, if_true, Option.getD_some] at hval
                rw [hval2] at hval
                simp at hval
      · simpa [updatePalette, hidx, hget, hval] using hst

theorem createPalette_bounds (st : PaletteState) (input : CreatePaletteInput)
    (newId : List Char) (now : ℤ) (setOk : Bool) (hst : PaletteBoundsOk st.palettes) :
    PaletteBoundsOk (createPalette st input newId now setOk).state.palettes := by
  by_cases hc : canCreatePalette st
  · rcases hval : validatePaletteInput input with d | ⟨e, c⟩
    · cases setOk with
      | false => simpa [createPalette, hc, hval] using hst
      | true =>
        intro q hq
        simp only [createPalette, hc, hval] at hq
        simp only [if_true] at hq
        rcases List.mem_append.mp hq with hmem | hnew
        · exact hst q hmem
        · obtain ⟨-, -, hlen⟩ := validatePaletteInput_ok _ _ hval
          simp only [List.mem_singleton] at hnew
          subst hnew
          simp [List.length_take, MAX_COLORS_PER_PALETTE]
          omega
    · simpa [createPalette, hc, hval] using hst
  · simpa [createPalette, hc] using hst

theorem addColorToPalette_bounds (st : PaletteState) (paletteId color : List Char)
    (now : ℤ) (setOk : Bool) (hst : PaletteBoundsOk st.palettes) :
    PaletteBoundsOk (addColorToPalette st paletteId color now setOk).state.palettes := by
  rcases hfind : st.palettes.find? (fun p => p.id = paletteId) with _ | palette
  · simpa [addColorToPalette, hfind] using hst
  · by_cases hcap : MAX_COLORS_PER_PALETTE ≤ palette.colors.length
    · simpa [addColorToPalette, hfind, hcap] using hst
    · by_cases hdup : jsToUpper color ∈ palette.colors
      · simpa [addColorToPalette, hfind, hcap, hdup] using hst
      · have hfun : addColorToPalette st paletteId color now setOk = updatePalette st
            { id := paletteId, name := none,
              colors := some (palette.colors ++ [jsToUpper color]) } now setOk := by
          simp [addColorToPalette, hfind, hcap, hdup]
        rw [hfun]
        exact updatePalette_bounds st _ now setOk hst

theorem removeColorFromPalette_bounds (st : PaletteState)
    (paletteId color : List Char) (now : ℤ) (setOk : Bool)
    (hst : PaletteBoundsOk st.palettes) :
    PaletteBoundsOk (removeColorFromPalette st paletteId color now setOk).state.palettes := by
  rcases hfind : st.palettes.find? (fun p => p.id = paletteId) with _ | palette
  · simpa [removeColorFromPalette, hfind] using hst
  · have hfun : removeColorFromPalette st paletteId color now setOk = updatePalette st
        { id := paletteId, name := none,
          colors := some (palette.colors.filter
            (fun c => ¬ jsToUpper c = jsToUpper color)) } now setOk := by
      simp [removeColorFromPalette, hfind]
    rw [hfun]
    exact updatePalette_bounds st _ now setOk hst

theorem updatePalette_emptyColors (st : PaletteState) (id : List Char) (now : ℤ)
    (setOk : Bool) (index : ℕ) (old : Palette)
    (hidx : st.palettes.findIdx? (fun p => p.id = id) = some index)
    (hget : st.palettes[index]? = some old)
    (hname1 : (jsTrim old.name).length ≠ 0) (hname2 : (jsTrim old.name).length ≤ 50) :
    updatePalette st ⟨id, none, some []⟩ now setOk =
      { result := .err "At least one color is required".toList
          (some "INVALID_COLORS".toList),
        state := st, setArg := none, notified := none } := by
  have h2 : ¬ 50 < (jsTrim old.name).length := by omega
  simp [updatePalette, hidx, hget, validatePaletteInput, hname1, h2]

/-- C10: every palette reachable through the public PaletteService API keeps
between 1 and 20 colors: all mutating operations preserve the bounds
invariant, removing a palette's last remaining color fails with code
`INVALID_COLORS` leaving the state untouched, and so does an update whose
colors array is empty. -/
theorem palette_colors_bounds_invariant :
    (∀ st input newId now setOk, PaletteBoundsOk st.palettes →
      PaletteBoundsOk (createPalette st input newId now setOk).state.palettes) ∧
    (∀ st input now setOk, PaletteBoundsOk st.palettes →
      PaletteBoundsOk (updatePalette st input now setOk).state.palettes) ∧
    (∀ st id color now setOk, PaletteBoundsOk st.palettes →
      PaletteBoundsOk (addColorToPalette st id color now setOk).state.palettes) ∧
    (∀ st id color now setOk, PaletteBoundsOk st.palettes →
      PaletteBoundsOk (removeColorFromPalette st id color now setOk).state.palettes) ∧
    (∀ st id setOk, PaletteBoundsOk st.palettes →
      PaletteBoundsOk (deletePalette st id setOk).state.palettes) ∧
    (∀ st delOk, PaletteBoundsOk st.palettes →
      PaletteBoundsOk (clearAllPalettes st delOk).state.palettes) ∧
    (∀ st paletteId color now setOk palette,
      st.palettes.find? (fun p => p.id = paletteId) = some palette →
      palette.colors.filter (fun c => ¬ jsToUpper c = jsToUpper color) = [] →
      (jsTrim palette.name).length ≠ 0 → (jsTrim palette.name).length ≤ 50 →
      removeColorFromPalette st paletteId color now setOk =
        { result := .err "At least one color is required".toList
            (some "INVALID_COLORS".toList),
          state := st, setArg := none, notified := none }) ∧
    (∀ st (id : List Char) now setOk index old,
      st.palettes.findIdx? (fun p => p.id = id) = some index →
      st.palettes[index]? = some old →
      (jsTrim old.name).length ≠ 0 → (jsTrim old.name).length ≤ 50 →
      updatePalette st ⟨id, none, some []⟩ now setOk =
        { result := .err "At least one color is required".toList
            (some "INVALID_COLORS".toList),
          state := st, setArg := none, notified := none }) := by
  refine ⟨createPalette_bounds, updatePalette_bounds, addColorToPalette_bounds,
    removeColorFromPalette_bounds, ?_, ?_, ?_, updatePalette_emptyColors⟩
  · intro st id setOk hst
    by_cases hidx : (st.palettes.findIdx? (fun p => p.id = id)).isNone
    · simpa [deletePalette, hidx] using hst
    · cases setOk with
      | false => simpa [deletePalette, hidx] using hst
      | true =>
        intro q hq
        simp only [deletePalette, hidx, if_false, if_true] at hq
        exact hst q (List.mem_filter.mp hq).1
  · intro st delOk hst
    cases delOk with
    | false => simpa [clearAllPalettes] using hst
    | true => simp [clearAllPalettes, PaletteBoundsOk]
  · intro st paletteId color now setOk palette hfind hempty h1 h2
    have hfun : removeColorFromPalette st paletteId color now setOk = updatePalette st
        { id := paletteId, name := none,
          colors := some (palette.colors.filter
            (fun c => ¬ jsToUpper c = jsToUpper color)) } now setOk := by
      simp [removeColorFromPalette, hfind]
    rw [hfun, hempty]
    obtain ⟨i, hidx, hget⟩ := findIdx?_of_find? _ _ _ hfind
    exact updatePalette_emptyColors st paletteId now setOk i palette hidx hget h1 h2

/-- Witness for C10: removing the only color of a one-color palette fails
with `INVALID_COLORS` and changes nothing. -/
theorem palette_colors_bounds_invariant_witness :
    removeColorFromPalette ⟨[samplePalette], false⟩ "id1".toList "#ff0000".toList 7 true =
      { result := .err "At least one color is required".toList
          (some "INVALID_COLORS".toList),
        state := ⟨[samplePalette], false⟩, setArg := none, notified := none } :=
  palette_colors_bounds_invariant.2.2.2.2.2.2.1 ⟨[samplePalette], false⟩
    "id1".toList "#ff0000".toList 7 true samplePalette (by decide) (by decide)
    (by decide) (by decide)

/-! ## C5: case normalization of palette colors -/

/-- C5 counterexample: `createPalette` stores the supplied lowercase color
string unchanged (no uppercase normalization), and a case-insensitive
duplicate is then *not* rejected by `addColorToPalette` (the add succeeds,
creating a second entry differing only in case). -/
theorem palette_uppercase_counterexample :
    (createPalette ⟨[], false⟩ ⟨"Sample".toList, ["#ff0000".toList]⟩ "id1".toList 0
        true).state.palettes.map Palette.colors = [["#ff0000".toList]] ∧
    ¬ jsToUpper "#ff0000".toList = "#ff0000".toList ∧
    (addColorToPalette
        ⟨[⟨"id1".toList, "Sample".toList, ["#ff0000".toList], 0, 0⟩], false⟩
        "id1".toList "#ff0000".toList 1 true).result =
      .ok ⟨"id1".toList, "Sample".toList, ["#ff0000".toList, "#FF0000".toList], 0, 1⟩ := by
  refine ⟨by decide, by decide, by decide⟩

/-- C5 amended: only `addColorToPalette` normalizes its added color to
uppercase — `createPalette` (and `updatePalette`) store colors exactly as
supplied, truncated to 20; duplicate-add is rejected, with no state change,
exactly when the uppercased new color literally equals a stored entry, and
otherwise the uppercased color is appended. -/
theorem palette_color_storage_amended :
    (∀ st input newId now, canCreatePalette st = true →
      ∀ d : Unit, validatePaletteInput input = .ok d →
      (createPalette st input newId now true).state.palettes =
        st.palettes ++ [⟨newId, jsTrim input.name,
          input.colors.take MAX_COLORS_PER_PALETTE, now, now⟩]) ∧
    (∀ st paletteId color now palette,
      st.palettes.find? (fun p => p.id = paletteId) = some palette →
      palette.colors.length < MAX_COLORS_PER_PALETTE →
      jsToUpper color ∈ palette.colors →
      ∀ setOk, addColorToPalette st paletteId color now setOk =
        { result := .err "Color already in palette".toList (some "DUPLICATE".toList),
          state := st, setArg := none, notified := none }) ∧
    (∀ st paletteId color now palette,
      st.palettes.find? (fun p => p.id = paletteId) = some palette →
      palette.colors.length < MAX_COLORS_PER_PALETTE →
      jsToUpper color ∉ palette.colors →
      (jsTrim palette.name).length ≠ 0 → (jsTrim palette.name).length ≤ 50 →
      (addColorToPalette st paletteId color now true).result =
        .ok ({ palette with
               colors := palette.colors ++ [jsToUpper color],
               updatedAt := now } : Palette)) ∧
    (∀ st (id : List Char) (cs : List (List Char)) (now : ℤ) index old,
      st.palettes.findIdx? (fun p => p.id = id) = some index →
      st.palettes[index]? = some old →
      (jsTrim old.name).length ≠ 0 → (jsTrim old.name).length ≤ 50 →
      cs.length ≠ 0 →
      (updatePalette st ⟨id, none, some cs⟩ now true).state.palettes =
        st.palettes.set index ({ old with
          colors := cs.take MAX_COLORS_PER_PALETTE,
          updatedAt := now } : Palette) ∧
      (updatePalette st ⟨id, none, some cs⟩ now true).result =
        .ok ({ old with
          colors := cs.take MAX_COLORS_PER_PALETTE,
          updatedAt := now } : Palette)) := by
  refine ⟨?_, ?_, ?_, ?_⟩
  · intro st input newId now hc d hval
    simp [createPalette, hc, hval]
  · intro st paletteId color now palette hfind hcap hdup setOk
    have hcap2 : ¬ MAX_COLORS_PER_PALETTE ≤ palette.colors.length := by omega
    simp [addColorToPalette, hfind, hcap2, hdup]
  · intro st paletteId color now palette hfind hcap hdup hname1 hname2
    have hcap2 : ¬ MAX_COLORS_PER_PALETTE ≤ palette.colors.length := by omega
    have hcap3 : palette.colors.length ≤ 19 := by
      have h20 : MAX_COLORS_PER_PALETTE = 20 := rfl
      omega
    have hfun : addColorToPalette st paletteId color now true = updatePalette st
        { id := paletteId, name := none,
          colors := some (palette.colors ++ [jsToUpper color]) } now true := by
      simp [addColorToPalette, hfind, hcap2, hdup]
    rw [hfun]
    obtain ⟨i, hidx, hget⟩ := findIdx?_of_find? _ _ _ hfind
    have h2 : ¬ 50 < (jsTrim palette.name).length := by omega
    have htake : (palette.colors ++ [jsToUpper color]).take MAX_COLORS_PER_PALETTE =
        palette.colors ++ [jsToUpper color] := by
      apply List.take_of_length_le
      have h20 : MAX_COLORS_PER_PALETTE = 20 := rfl
      simp only [List.length_append, List.length_cons, List.length_nil, h20]
      omega
    simp [updatePalette, hidx, hget, validatePaletteInput, hname1, h2, htake,
      MAX_COLORS_PER_PALETTE]
    try omega
  · intro st id cs now index old hidx hget hname1 hname2 hcs
    have h2 : ¬ 50 < (jsTrim old.name).length := by omega
    constructor <;>
      simp [updatePalette, hidx, hget, validatePaletteInput, hname1, h2, hcs]

/-! ## C8 and C9 groundwork: hex strings of byte values -/


theorem jsRound_intCast (n : ℤ) : jsRound (n : ℚ) = n := by
  unfold jsRound
  rw [add_comm, Int.floor_add_int]
  norm_num

theorem toHex_natCast (n : ℕ) : toHex (n : ℚ) = toHexNat n := by
  have hn : ¬ ((n : ℤ) < 0) := not_lt.mpr (Int.natCast_nonneg n)
  unfold toHex toHexNat intToString16
  rw [show ((n : ℚ)) = ((n : ℤ) : ℚ) by push_cast ; ring]
  rw [jsRound_intCast]
  simp [hn]

/-- Witness for the amended C5: adding `#ff0000` where `#FF0000` is stored
is rejected as a duplicate with no state change, and `updatePalette` stores
the mixed-case color `#aBc123` exactly as supplied. -/
theorem palette_color_storage_amended_witness :
    (addColorToPalette
        ⟨[⟨"id1".toList, "Sample".toList, ["#FF0000".toList], 0, 0⟩], false⟩
        "id1".toList "#ff0000".toList 2 true =
      { result := .err "Color already in palette".toList (some "DUPLICATE".toList),
        state := ⟨[⟨"id1".toList, "Sample".toList, ["#FF0000".toList], 0, 0⟩], false⟩,
        setArg := none, notified := none }) ∧
    ((updatePalette ⟨[samplePalette], false⟩
        ⟨"id1".toList, none, some ["#aBc123".toList]⟩ 3 true).state.palettes =
      [samplePalette].set 0 ({ samplePalette with
        colors := ["#aBc123".toList].take MAX_COLORS_PER_PALETTE,
        updatedAt := 3 } : Palette) ∧
      (updatePalette ⟨[samplePalette], false⟩
        ⟨"id1".toList, none, some ["#aBc123".toList]⟩ 3 true).result =
      .ok ({ samplePalette with
        colors := ["#aBc123".toList].take MAX_COLORS_PER_PALETTE,
        updatedAt := 3 } : Palette)) :=
  ⟨palette_color_storage_amended.2.1
    ⟨[⟨"id1".toList, "Sample".toList, ["#FF0000".toList], 0, 0⟩], false⟩
    "id1".toList "#ff0000".toList 2
    ⟨"id1".toList, "Sample".toList, ["#FF0000".toList], 0, 0⟩
    (by decide) (by decide) (by decide) true,
    palette_color_storage_amended.2.2.2
      ⟨[samplePalette], false⟩ "id1".toList ["#aBc123".toList] 3 0 samplePalette
      (by decide) (by decide) (by decide) (by decide) (by decide)⟩

set_option maxRecDepth 10000 in
theorem toHexNat_parse : ∀ n : ℕ, n < 256 →
    (jsToUpper (toHexNat n)).length = 2 ∧
    parseIntHex (jsToUpper (toHexNat n)) = some n := by decide

theorem jsToUpperChar_hash : jsToUpperChar '#' = '#' := rfl

theorem replaceFirstHash_cons (l : List Char) : replaceFirstHash ('#' :: l) = l := by
  simp [replaceFirstHash]

/-- The channel blocks of `rgbToHex` on byte values. -/
theorem rgbToHex_natCast (r g b : ℕ) :
    rgbToHex (r : ℚ) (g : ℚ) (b : ℚ) =
      '#' :: (jsToUpper (toHexNat r) ++ jsToUpper (toHexNat g) ++ jsToUpper (toHexNat b)) := by
  unfold rgbToHex jsToUpper
  rw [toHex_natCast, toHex_natCast, toHex_natCast]
  simp [jsToUpperChar_hash]

/-! ## C8: exact HEX round trip on byte triples -/

/-- C8: for every RGB triple of integers in [0,255],
`hexToRgb (rgbToHex r g b)` recovers exactly `(r, g, b)`. -/
theorem hex_roundTrip_exact (r g b : ℕ) (hr : r ≤ 255) (hg : g ≤ 255) (hb : b ≤ 255) :
    hexToRgb (rgbToHex (r : ℚ) (g : ℚ) (b : ℚ)) = some ⟨(r : ℚ), (g : ℚ), (b : ℚ)⟩ := by
  obtain ⟨hlr, hpr⟩ := toHexNat_parse r (by omega)
  obtain ⟨hlg, hpg⟩ := toHexNat_parse g (by omega)
  obtain ⟨hlb, hpb⟩ := toHexNat_parse b (by omega)
  rw [rgbToHex_natCast]
  simp only [hexToRgb, replaceFirstHash_cons]
  have h1 : jsSubstring
      (jsToUpper (toHexNat r) ++ jsToUpper (toHexNat g) ++ jsToUpper (toHexNat b)) 0 2 =
      jsToUpper (toHexNat r) := by
    unfold jsSubstring
    rw [List.append_assoc, List.take_left' hlr]
    simp
  have h2 : jsSubstring
      (jsToUpper (toHexNat r) ++ jsToUpper (toHexNat g) ++ jsToUpper (toHexNat b)) 2 4 =
      jsToUpper (toHexNat g) := by
    unfold jsSubstring
    have h4 : (jsToUpper (toHexNat r) ++ jsToUpper (toHexNat g)).length = 4 := by
      simp [hlr, hlg]
    rw [List.take_left' h4, List.drop_left' hlr]
  have h3 : jsSubstring
      (jsToUpper (toHexNat r) ++ jsToUpper (toHexNat g) ++ jsToUpper (toHexNat b)) 4 6 =
      jsToUpper (toHexNat b) := by
    unfold jsSubstring
    have h6 : (jsToUpper (toHexNat r) ++ jsToUpper (toHexNat g) ++
        jsToUpper (toHexNat b)).length ≤ 6 := by
      simp [hlr, hlg, hlb]
    have h4 : (jsToUpper (toHexNat r) ++ jsToUpper (toHexNat g)).length = 4 := by
      simp [hlr, hlg]
    rw [List.take_of_length_le h6, List.drop_left' h4]
  rw [h1, h2, h3, hpr, hpg, hpb]

/-- Witness for C8 at the triple (17, 0, 255). -/
theorem hex_roundTrip_exact_witness :
    hexToRgb (rgbToHex ((17 : ℕ) : ℚ) ((0 : ℕ) : ℚ) ((255 : ℕ) : ℚ)) =
      some ⟨((17 : ℕ) : ℚ), ((0 : ℕ) : ℚ), ((255 : ℕ) : ℚ)⟩ :=
  hex_roundTrip_exact 17 0 255 (by decide) (by decide) (by decide)

/-! ## C9: shape of `rgbToHex` output -/


theorem toHex_of_nonneg (x : ℚ) (h : 0 ≤ jsRound x) :
    toHex x = toHexNat (jsRound x).toNat := by
  have hneg : ¬ (jsRound x < 0) := by omega
  unfold toHex toHexNat intToString16
  simp [hneg]

set_option maxRecDepth 10000 in
theorem toHexNat_upperFormat : ∀ n : ℕ, n < 256 →
    (jsToUpper (toHexNat n)).length = 2 ∧
    (jsToUpper (toHexNat n)).all isUpperHexDigit = true := by decide

/-- C9 counterexample: `rgbToHex` does not clamp — channel 256 yields the
seven-digit string `#1000000`, which is not `#` + six uppercase hex
digits. -/
theorem rgbToHex_no_clamp_counterexample :
    rgbToHex 256 0 0 = "#1000000".toList ∧
    specHexColorFormat (rgbToHex 256 0 0) = false := by
  have h : rgbToHex 256 0 0 = '#' :: (jsToUpper (toHexNat 256) ++
      jsToUpper (toHexNat 0) ++ jsToUpper (toHexNat 0)) := by
    have h2 := rgbToHex_natCast 256 0 0
    push_cast at h2
    exact h2
  refine ⟨?_, ?_⟩ <;> rw [h] <;> decide

/-- C9 amended: `rgbToHex` rounds each channel to the nearest integer (half
toward `+∞`) but never clamps; whenever every rounded channel lies in
[0,255], the result is `#` followed by exactly six uppercase hexadecimal
digits, two zero-padded digits per channel. -/
theorem rgbToHex_format_amended (r g b : ℚ)
    (hr0 : 0 ≤ jsRound r) (hr1 : jsRound r ≤ 255)
    (hg0 : 0 ≤ jsRound g) (hg1 : jsRound g ≤ 255)
    (hb0 : 0 ≤ jsRound b) (hb1 : jsRound b ≤ 255) :
    rgbToHex r g b = '#' :: (jsToUpper (toHexNat (jsRound r).toNat) ++
      jsToUpper (toHexNat (jsRound g).toNat) ++ jsToUpper (toHexNat (jsRound b).toNat)) ∧
    specHexColorFormat (rgbToHex r g b) = true := by
  have hmain : rgbToHex r g b = '#' :: (jsToUpper (toHexNat (jsRound r).toNat) ++
      jsToUpper (toHexNat (jsRound g).toNat) ++ jsToUpper (toHexNat (jsRound b).toNat)) := by
    unfold rgbToHex jsToUpper
    rw [toHex_of_nonneg r hr0, toHex_of_nonneg g hg0, toHex_of_nonneg b hb0]
    simp [jsToUpperChar_hash]
  refine ⟨hmain, ?_⟩
  obtain ⟨hlr, har⟩ := toHexNat_upperFormat (jsRound r).toNat (by omega)
  obtain ⟨hlg, hag⟩ := toHexNat_upperFormat (jsRound g).toNat (by omega)
  obtain ⟨hlb, hab⟩ := toHexNat_upperFormat (jsRound b).toNat (by omega)
  rw [hmain]
  simp [specHexColorFormat, List.all_append, hlr, hlg, hlb, har, hag, hab]

/-- Witness for the amended C9 at the fractional input (255.4, 0, 107.5). -/
theorem rgbToHex_format_amended_witness :
    rgbToHex (2554/10) 0 (1075/10) = '#' ::
      (jsToUpper (toHexNat (jsRound (2554/10)).toNat) ++
        jsToUpper (toHexNat (jsRound (0 : ℚ)).toNat) ++
        jsToUpper (toHexNat (jsRound (1075/10)).toNat)) ∧
    specHexColorFormat (rgbToHex (2554/10) 0 (1075/10)) = true :=
  rgbToHex_format_amended (2554/10) 0 (1075/10)
    (by norm_num [jsRound]) (by norm_num [jsRound]) (by norm_num [jsRound])
    (by norm_num [jsRound]) (by norm_num [jsRound]) (by norm_num [jsRound])

/-! ## C2: harmony cardinalities and base membership -/

theorem hexToRgb_isSome_of_valid (hex : List Char) (h : isValidHex hex = true) :
    (hexToRgb hex).isSome = true := by
  rcases hex with _ | ⟨c, ds⟩
  · simp [isValidHex] at h
  · simp only [isValidHex, Bool.and_eq_true, beq_iff_eq, decide_eq_true_eq] at h
    obtain ⟨⟨hc, hlen⟩, hall⟩ := h
    subst hc
    rcases ds with _ | ⟨a1, _ | ⟨a2, _ | ⟨a3, _ | ⟨a4, _ | ⟨a5, _ | ⟨a6, tl⟩⟩⟩⟩⟩⟩ <;>
      simp only [List.length_cons, List.length_nil] at hlen
    · omega
    · omega
    · omega
    · omega
    · omega
    · omega
    · have htl : tl = [] := by
        have : tl.length = 0 := by omega
        exact List.length_eq_zero.mp this
      subst htl
      simp only [List.all_cons, List.all_nil, Bool.and_eq_true, Bool.and_true] at hall
      obtain ⟨h1, h2, h3, h4, h5, h6⟩ := hall
      simp [hexToRgb, replaceFirstHash, jsSubstring, parseIntHex, hexPrefix,
        h1, h2, h3, h4, h5, h6]

/-- C2 amended: for every valid 6-digit hex base, `getHarmonyColors` returns
2/3/5/3/4 colors for complementary/triadic/analogous/split-complementary/
tetradic, and the base's exact string appears in the output for every kind
except analogous, whose 0° entry is instead regenerated through the HSV
round trip and may differ from the base string by rounding. -/
theorem harmony_cardinality_amended (hex : List Char) (h : isValidHex hex = true) :
    (getHarmonyColors hex .complementary).length = 2 ∧
    (getHarmonyColors hex .triadic).length = 3 ∧
    (getHarmonyColors hex .analogous).length = 5 ∧
    (getHarmonyColors hex .splitComplementary).length = 3 ∧
    (getHarmonyColors hex .tetradic).length = 4 ∧
    hex ∈ getHarmonyColors hex .complementary ∧
    hex ∈ getHarmonyColors hex .triadic ∧
    hex ∈ getHarmonyColors hex .splitComplementary ∧
    hex ∈ getHarmonyColors hex .tetradic := by
  obtain ⟨rgb, hrgb⟩ := Option.isSome_iff_exists.mp (hexToRgb_isSome_of_valid hex h)
  refine ⟨?_, ?_, ?_, ?_, ?_, ?_, ?_, ?_, ?_⟩ <;>
    simp [getHarmonyColors, getComplementary, getTriadic, getAnalogous,
      getSplitComplementary, getTetradic, hrgb]

/-- Witness for the amended C2 at the base `#FF6B35`. -/
theorem harmony_cardinality_amended_witness :
    (getHarmonyColors "#FF6B35".toList .complementary).length = 2 ∧
    (getHarmonyColors "#FF6B35".toList .triadic).length = 3 ∧
    (getHarmonyColors "#FF6B35".toList .analogous).length = 5 ∧
    (getHarmonyColors "#FF6B35".toList .splitComplementary).length = 3 ∧
    (getHarmonyColors "#FF6B35".toList .tetradic).length = 4 ∧
    "#FF6B35".toList ∈ getHarmonyColors "#FF6B35".toList .complementary ∧
    "#FF6B35".toList ∈ getHarmonyColors "#FF6B35".toList .triadic ∧
    "#FF6B35".toList ∈ getHarmonyColors "#FF6B35".toList .splitComplementary ∧
    "#FF6B35".toList ∈ getHarmonyColors "#FF6B35".toList .tetradic :=
  harmony_cardinality_amended "#FF6B35".toList (by decide)


/-- C2 counterexample: for the valid base `#FF0001`, the analogous harmony
does not contain the base's exact HEX string (its 0° entry is the HSV
round-tripped `#FF0000`). -/

theorem harmony_base_membership_counterexample :
    isValidHex "#FF0001".toList = true ∧
    ¬ "#FF0001".toList ∈ getHarmonyColors "#FF0001".toList .analogous := by
  constructor
  · decide
  · have hp1 : parseIntHex (jsSubstring (replaceFirstHash "#FF0001".toList) 0 2) = some 255 := by
      decide
    have hp2 : parseIntHex (jsSubstring (replaceFirstHash "#FF0001".toList) 2 4) = some 0 := by
      decide
    have hp3 : parseIntHex (jsSubstring (replaceFirstHash "#FF0001".toList) 4 6) = some 1 := by
      decide
    have hparse : hexToRgb "#FF0001".toList = some ⟨255, 0, 1⟩ := by
      simp only [hexToRgb, hp1, hp2, hp3]
      norm_num
    have hhsv : rgbToHsv 255 0 1 = ⟨360, 100, 100⟩ := by
      norm_num [rgbToHsv, jsRound, max_def, min_def]
    have c1 : hsvToRgb 330 100 100 = ⟨255, 0, 128⟩ := by
      norm_num [hsvToRgb, jsRound, jsFloor, tmod_nonneg_eq_emod]
    have c2 : hsvToRgb 345 100 100 = ⟨255, 0, 64⟩ := by
      norm_num [hsvToRgb, jsRound, jsFloor, tmod_nonneg_eq_emod]
    have c3 : hsvToRgb 0 100 100 = ⟨255, 0, 0⟩ := by
      norm_num [hsvToRgb, jsRound, jsFloor, tmod_nonneg_eq_emod]
    have c4 : hsvToRgb 15 100 100 = ⟨255, 64, 0⟩ := by
      norm_num [hsvToRgb, jsRound, jsFloor, tmod_nonneg_eq_emod]
    have c5 : hsvToRgb 30 100 100 = ⟨255, 128, 0⟩ := by
      norm_num [hsvToRgb, jsRound, jsFloor, tmod_nonneg_eq_emod]
    have e1 : rgbToHex 255 0 128 = "#FF0080".toList := by
      have h := rgbToHex_natCast 255 0 128
      push_cast at h
      rw [h]
      decide
    have e2 : rgbToHex 255 0 64 = "#FF0040".toList := by
      have h := rgbToHex_natCast 255 0 64
      push_cast at h
      rw [h]
      decide
    have e3 : rgbToHex 255 0 0 = "#FF0000".toList := by
      have h := rgbToHex_natCast 255 0 0
      push_cast at h
      rw [h]
      decide
    have e4 : rgbToHex 255 64 0 = "#FF4000".toList := by
      have h := rgbToHex_natCast 255 64 0
      push_cast at h
      rw [h]
      decide
    have e5 : rgbToHex 255 128 0 = "#FF8000".toList := by
      have h := rgbToHex_natCast 255 128 0
      push_cast at h
      rw [h]
      decide
    have hlist : getHarmonyColors "#FF0001".toList .analogous =
        ["#FF0080".toList, "#FF0040".toList, "#FF0000".toList,
          "#FF4000".toList, "#FF8000".toList] := by
      simp only [getHarmonyColors, getAnalogous, hparse, hhsv, List.map_cons, List.map_nil]
      norm_num [tmod_nonneg_eq_emod, c1, c2, c3, c4, c5, e1, e2, e3, e4, e5]
    rw [hlist]
    decide


/-! ## C1: HSV round trip -/


theorem RGB_mk_r (r g b : ℚ) : (⟨r, g, b⟩ : RGB).r = r := rfl

theorem RGB_mk_g (r g b : ℚ) : (⟨r, g, b⟩ : RGB).g = g := rfl

theorem RGB_mk_b (r g b : ℚ) : (⟨r, g, b⟩ : RGB).b = b := rfl

theorem jsRound_intCast_div_natCast (a : ℤ) (b : ℕ) (hb : 0 < b) :
    jsRound ((a : ℚ) / (b : ℚ)) = (2 * a + b) / ((2 * b : ℕ) : ℤ) := by
  unfold jsRound
  have hb' : (b : ℚ) ≠ 0 := by positivity
  have hrw : (a : ℚ) / b + 1/2 = ((2*a + b : ℤ) : ℚ) / ((2*b : ℕ) : ℚ) := by
    push_cast
    field_simp
    ring
  rw [hrw, Rat.floor_intCast_div_natCast]

theorem rgbToHsv_gray (x : ℚ) : rgbToHsv x x x = ⟨0, 0, jsRound (x/255*100)⟩ := by
  simp [rgbToHsv, jsRound]
  norm_num

theorem hsvToRgb_gray (v : ℤ) :
    hsvToRgb 0 0 (v : ℚ) =
      ⟨(jsRound ((v : ℚ)/100*255) : ℚ), (jsRound ((v : ℚ)/100*255) : ℚ),
        (jsRound ((v : ℚ)/100*255) : ℚ)⟩ := by
  simp [hsvToRgb, jsFloor]

set_option maxRecDepth 10000 in
theorem gray_bound_int : ∀ x : ℕ, x < 256 →
    (2 * (255 * ((2*(100*(x:ℤ))+255) / ((2*255 : ℕ) : ℤ))) + 100) / ((2*100 : ℕ) : ℤ)
      - x ≤ 1 ∧
    (x : ℤ) -
      (2 * (255 * ((2*(100*(x:ℤ))+255) / ((2*255 : ℕ) : ℤ))) + 100) / ((2*100 : ℕ) : ℤ)
      ≤ 1 := by decide

theorem gray_roundTrip_form (x : ℕ) :
    hsvRoundTrip (x:ℚ) (x:ℚ) (x:ℚ) =
      ⟨(((2 * (255 * ((2*(100*(x:ℤ))+255) / ((2*255 : ℕ) : ℤ))) + 100) /
          ((2*100 : ℕ) : ℤ) : ℤ) : ℚ),
        (((2 * (255 * ((2*(100*(x:ℤ))+255) / ((2*255 : ℕ) : ℤ))) + 100) /
          ((2*100 : ℕ) : ℤ) : ℤ) : ℚ),
        (((2 * (255 * ((2*(100*(x:ℤ))+255) / ((2*255 : ℕ) : ℤ))) + 100) /
          ((2*100 : ℕ) : ℤ) : ℤ) : ℚ)⟩ := by
  have hv : jsRound ((x:ℚ)/255*100) = (2*(100*(x:ℤ))+255) / ((2*255 : ℕ) : ℤ) := by
    rw [show (x:ℚ)/255*100 = ((100*(x:ℤ) : ℤ):ℚ)/((255:ℕ):ℚ) by push_cast ; ring]
    exact jsRound_intCast_div_natCast _ _ (by norm_num)
  set w : ℤ := (2*(100*(x:ℤ))+255) / ((2*255 : ℕ) : ℤ) with hw
  have hc : jsRound ((w:ℚ)/100*255) = (2*(255*w)+100) / ((2*100 : ℕ) : ℤ) := by
    rw [show (w:ℚ)/100*255 = ((255*w : ℤ):ℚ)/((100:ℕ):ℚ) by push_cast ; ring]
    exact jsRound_intCast_div_natCast _ _ (by norm_num)
  unfold hsvRoundTrip
  rw [rgbToHsv_gray]
  show hsvToRgb ((0:ℤ):ℚ) ((0:ℤ):ℚ) ((jsRound ((x:ℚ)/255*100) : ℤ) : ℚ) = _
  rw [hv]
  norm_num [hsvToRgb_gray, hc]

/-- C1 counterexample: the RGB triple (218, 206, 206) round-trips through
HSV to (217, 204, 204); the green channel moves by 2, violating the claimed
±1 tolerance. -/
theorem hsv_roundTrip_tolerance_counterexample :
    hsvRoundTrip 218 206 206 = ⟨217, 204, 204⟩ ∧
    ¬ |(hsvRoundTrip 218 206 206).g - 206| ≤ 1 := by
  have h : hsvRoundTrip 218 206 206 = ⟨217, 204, 204⟩ := by
    norm_num [hsvRoundTrip, rgbToHsv, hsvToRgb, jsRound, jsFloor, max_def, min_def]
  refine ⟨h, ?_⟩
  rw [h, RGB_mk_g]
  norm_num

/-- C1 amended: the ±1 round-trip tolerance holds for achromatic triples
(r = g = b); `rgbToHsv` reports hue 0 and saturation 0 exactly on achromatic
input; and for chromatic input the round trip can deviate by more than 1 per
channel — up to 3, as at (0, 108, 254) → (0, 111, 255). -/
theorem hsv_roundTrip_amended :
    (∀ x : ℕ, x ≤ 255 →
      |(hsvRoundTrip (x:ℚ) (x:ℚ) (x:ℚ)).r - (x:ℚ)| ≤ 1 ∧
      |(hsvRoundTrip (x:ℚ) (x:ℚ) (x:ℚ)).g - (x:ℚ)| ≤ 1 ∧
      |(hsvRoundTrip (x:ℚ) (x:ℚ) (x:ℚ)).b - (x:ℚ)| ≤ 1) ∧
    (∀ r g b : ℚ, r = g → g = b →
      (rgbToHsv r g b).h = 0 ∧ (rgbToHsv r g b).s = 0) ∧
    (hsvRoundTrip 0 108 254 = ⟨0, 111, 255⟩ ∧
      ¬ |(hsvRoundTrip 0 108 254).g - 108| ≤ 2) := by
  refine ⟨?_, ?_, ?_, ?_⟩
  · intro x hx
    obtain ⟨hb1, hb2⟩ := gray_bound_int x (by omega)
    refine ⟨?_, ?_, ?_⟩ <;>
      rw [gray_roundTrip_form] <;>
      first
        | rw [RGB_mk_r, abs_sub_le_iff] ; exact ⟨by exact_mod_cast hb1, by exact_mod_cast hb2⟩
        | rw [RGB_mk_g, abs_sub_le_iff] ; exact ⟨by exact_mod_cast hb1, by exact_mod_cast hb2⟩
        | rw [RGB_mk_b, abs_sub_le_iff] ; exact ⟨by exact_mod_cast hb1, by exact_mod_cast hb2⟩
  · intro r g b h1 h2
    subst h1
    subst h2
    rw [rgbToHsv_gray]
    exact ⟨rfl, rfl⟩
  · norm_num [hsvRoundTrip, rgbToHsv, hsvToRgb, jsRound, jsFloor, max_def, min_def,
      tmod_nonneg_eq_emod]
  · have h : hsvRoundTrip 0 108 254 = ⟨0, 111, 255⟩ := by
      norm_num [hsvRoundTrip, rgbToHsv, hsvToRgb, jsRound, jsFloor, max_def, min_def,
        tmod_nonneg_eq_emod]
    rw [h, RGB_mk_g]
    norm_num

/-- Witness for the amended C1 at the achromatic value 7 and the concrete
chromatic triples named in the statement. -/
theorem hsv_roundTrip_amended_witness :
    (|(hsvRoundTrip ((7:ℕ):ℚ) ((7:ℕ):ℚ) ((7:ℕ):ℚ)).r - ((7:ℕ):ℚ)| ≤ 1 ∧
      |(hsvRoundTrip ((7:ℕ):ℚ) ((7:ℕ):ℚ) ((7:ℕ):ℚ)).g - ((7:ℕ):ℚ)| ≤ 1 ∧
      |(hsvRoundTrip ((7:ℕ):ℚ) ((7:ℕ):ℚ) ((7:ℕ):ℚ)).b - ((7:ℕ):ℚ)| ≤ 1) ∧
    ((rgbToHsv 9 9 9).h = 0 ∧ (rgbToHsv 9 9 9).s = 0) :=
  ⟨hsv_roundTrip_amended.1 7 (by decide),
    hsv_roundTrip_amended.2.1 9 9 9 rfl rfl⟩



/-! ## C7: extraction fallback -/


theorem byteAt_replicate_zero (n j : ℕ) : byteAt (List.replicate n 0) j = 0 := by
  unfold byteAt
  rcases h : (List.replicate n (0:ℕ)).get? j with _ | v
  · rfl
  · have hv := List.eq_of_mem_replicate (List.get?_mem h)
    simp [hv]

/-- C7: extraction never fails to produce a complete color set — when every
sampled pixel is filtered out, `extractDominantColors` returns its fixed
five-color default list (here: when every sampled pixel's alpha byte is
below 128, e.g. a fully transparent buffer), and the JS fallback core of
`extractColorsFromImage` returns the configured fallback set, i.e.
`DEFAULT_COLORS` by default (here: when every sampled byte triple fails the
brightness filter, as in an all-zero buffer). -/
theorem extraction_fallback :
    (∀ (imageData : List ℕ) (width height colorCount : ℕ),
      (∀ i ∈ strideIndices imageData.length (4 * max 1 (width * height / 10000)),
        byteAt imageData (i + 3) < 128) →
      extractDominantColors imageData width height colorCount = DOMINANT_DEFAULTS) ∧
    (∀ (bytes : List ℕ) (fallbackColors : Option ExtractedColors),
      (∀ i ∈ strideIndices (bytes.length - 3) (max 1 (bytes.length / 10000) * 3),
        ((byteAt bytes i : ℚ) + byteAt bytes (i + 1) + byteAt bytes (i + 2)) / 3 < 20 ∨
          235 < ((byteAt bytes i : ℚ) + byteAt bytes (i + 1) + byteAt bytes (i + 2)) / 3) →
      extractColorsFromImage bytes fallbackColors = fallbackColors.getD DEFAULT_COLORS) := by
  constructor
  · intro imageData width height colorCount h
    have hpix : (strideIndices imageData.length (4 * max 1 (width * height / 10000))).filterMap
        (fun i =>
          let r := byteAt imageData i
          let g := byteAt imageData (i + 1)
          let b := byteAt imageData (i + 2)
          let a := byteAt imageData (i + 3)
          if a < 128 then none
          else if ((r : ℚ) + g + b) / 3 < 20 ∨ 235 < ((r : ℚ) + g + b) / 3 then none
          else some (⟨r, g, b⟩ : PixelRGB)) = [] := by
      rw [List.filterMap_eq_nil_iff]
      intro i hi
      simp [h i hi]
    simp only [extractDominantColors, hpix]
    simp
  · intro bytes fallbackColors h
    have hfold : ∀ (l : List ℕ),
        (∀ i ∈ l,
          ((byteAt bytes i : ℚ) + byteAt bytes (i + 1) + byteAt bytes (i + 2)) / 3 < 20 ∨
            235 < ((byteAt bytes i : ℚ) + byteAt bytes (i + 1) + byteAt bytes (i + 2)) / 3) →
        ∀ m, l.foldl (fun m i =>
          let r := byteAt bytes i
          let g := byteAt bytes (i + 1)
          let b := byteAt bytes (i + 2)
          if ((r : ℚ) + g + b) / 3 < 20 ∨ 235 < ((r : ℚ) + g + b) / 3 then m
          else upsertAvg m (r / 32 * 32, g / 32 * 32, b / 32 * 32) r g b) m = m := by
      intro l
      induction l with
      | nil => intro _ m ; rfl
      | cons i is ih =>
        intro hall m
        rw [List.foldl_cons]
        have hcond := hall i (by simp)
        simp only [if_pos hcond]
        exact ih (fun j hj => hall j (by simp [hj])) m
    simp only [extractColorsFromImage, extractColorsJS]
    rw [hfold _ h []]
    simp [List.mergeSort_nil]

/-- Witness for C7 on a 16-byte all-zero (fully transparent black) RGBA
buffer. -/
theorem extraction_fallback_witness :
    extractDominantColors (List.replicate 16 0) 2 2 5 = DOMINANT_DEFAULTS ∧
    extractColorsFromImage (List.replicate 16 0) none = DEFAULT_COLORS :=
  ⟨extraction_fallback.1 (List.replicate 16 0) 2 2 5 (by decide),
    extraction_fallback.2 (List.replicate 16 0) none
      (by intro i hi ; norm_num [byteAt_replicate_zero])⟩

end QuickColor
